import Mathlib

/-!
Verification of the PyKMN Gen 1 battle state codec (`pykmn/engine/gen1.py`)
against its natural-language specification.

The battle state buffer is modelled as a total function from byte addresses
to natural numbers; every accessor of the `Battle` class becomes a Lean
function over that buffer.  Code of the repository that is not available
under `src/` (the bit-packing primitives of `pykmn/engine/common.py`, the
static layout and lookup tables of `pykmn/data`, and the external libpkmn
engine boundary) is modelled from the specification; each such definition
carries a doc comment starting with `Modelled from the spec:`.
-/

/-- The two players of a battle (source: `Player` enum used as an integer
multiplier in every accessor of `gen1.py`). -/
inductive Player where
  | P1
  | P2
deriving DecidableEq

/-- Numeric value of a player, as used in offset arithmetic
(`LAYOUT_SIZES['Side'] * player`). -/
def Player.toNat : Player → Nat
  | .P1 => 0
  | .P2 => 1

/-- The battle state buffer: a total map from byte addresses to byte values
(source: `self._pkmn_battle.bytes`). -/
def Buf : Type := Nat → Nat

/-- The zero-initialized buffer produced by `ffi.new("pkmn_gen1_battle *")`,
which zero-fills the allocation. -/
def zeroBuf : Buf := fun _ => 0

/-- Write a single byte at address `i` (source: `self._pkmn_battle.bytes[i] = v`). -/
def setByte (buf : Buf) (i v : Nat) : Buf :=
  fun j => if j = i then v else buf j

/-- Write a list of bytes at consecutive addresses starting at `start`
(source: sequential `bytes[offset] = ...; offset += 1` writes and slice
assignments `bytes[offset:offset+n] = ...`). -/
def writeBytes : Buf → Nat → List Nat → Buf
  | buf, _, [] => buf
  | buf, start, v :: rest => writeBytes (setByte buf start v) (start + 1) rest

/-- Modelled from the spec: the error kinds of section 7 of the
specification (`pykmn.engine.common` exception classes are not under
`src/`). -/
inductive PyKMNError where
  | invalidIdentifier (name : String)
  | outOfRange (msg : String)
  | seedModeMismatch (msg : String)
  | softlock (msg : String)
  | engineProtocolViolation (msg : String)
deriving DecidableEq

/-- Whether a fallible computation succeeded. -/
def okB {α : Type} (r : Except PyKMNError α) : Bool :=
  match r with
  | .ok _ => true
  | .error _ => false

/-- Whether a setter failed with the OutOfRangeValue error kind. -/
def failsOutOfRange {α : Type} (r : Except PyKMNError α) : Bool :=
  match r with
  | .error (.outOfRange _) => true
  | _ => false

/-!
## Bit-packing primitives

Modelled from the spec, section 4.2: `pykmn/engine/common.py` is not under
`src/`.  Pairs of nibbles are stored with the first component in the low
nibble; this choice is internally consistent across pack/unpack, which is
all any accessor of `gen1.py` relies on.
-/

/-- Modelled from the spec: `pack_u16_le` — little-endian 16-bit pack
(`pack_u16_as_bytes` of `common.py`). -/
def pack_u16_as_bytes (v : Nat) : List Nat :=
  [v % 256, v / 256 % 256]

/-- Modelled from the spec: little-endian 16-bit unpack
(`unpack_u16_from_bytes` of `common.py`). -/
def unpack_u16_from_bytes (lo hi : Nat) : Nat :=
  lo + 256 * hi

/-- Modelled from the spec: pack two unsigned 4-bit values into one byte;
each value is constrained to [0, 15] (`pack_two_u4s` of `common.py`). -/
def pack_two_u4s (a b : Nat) : Nat :=
  a % 16 + 16 * (b % 16)

/-- Modelled from the spec: inverse of `pack_two_u4s`
(`unpack_two_u4s` of `common.py`). -/
def unpack_two_u4s (c : Nat) : Nat × Nat :=
  (c % 16, c / 16 % 16)

/-- Two's-complement value of an unsigned nibble. -/
def i4FromNat (n : Nat) : Int :=
  if n < 8 then (n : Int) else (n : Int) - 16

/-- Modelled from the spec: pack two signed 4-bit values (two's-complement,
range [-8, 7]) into one byte (`pack_two_i4s` of `common.py`). -/
def pack_two_i4s (a b : Int) : Nat :=
  (a % 16).toNat + 16 * ((b % 16).toNat)

/-- Modelled from the spec: inverse of `pack_two_i4s`
(`unpack_two_i4s` of `common.py`). -/
def unpack_two_i4s (c : Nat) : Int × Int :=
  (i4FromNat (c % 16), i4FromNat (c / 16 % 16))

/-- Modelled from the spec: return the `length`-bit unsigned field starting
at `bit_offset` within one byte (`extract_unsigned_int_at_offset` of
`common.py`). -/
def extract_unsigned_int_at_offset (byte offset length : Nat) : Nat :=
  byte / 2 ^ offset % 2 ^ length

/-- Modelled from the spec: replace bits `[offset, offset+length)` of `byte`
with the low `length` bits of `n`, preserving all other bits; fails when
`n` exceeds the declared width (`insert_unsigned_int_at_offset` of
`common.py`; the spec requires the write to fail if `value >= 2^length`). -/
def insert_unsigned_int_at_offset (byte n offset length : Nat) : Option Nat :=
  if n < 2 ^ length then
    some (byte % 2 ^ offset + n * 2 ^ offset +
      byte / 2 ^ (offset + length) * 2 ^ (offset + length))
  else
    none

/-!
## Layout schema

Modelled from the spec, section 4.1: the static registry
`LAYOUT_OFFSETS` / `LAYOUT_SIZES` lives in `pykmn.data.gen1`, which is not
under `src/`.  The concrete values below form one fixed table consistent
with every structural constraint the source relies on (the commented
`assert offset == ...` lines of `_initialize_pokemon`: stats, moves, hp,
status, species, types, level are consecutive within a 24-byte Pokémon
record; `state` and `substitute` bit offsets are byte-aligned; every
sub-byte field fits inside a single byte).
-/

def BATTLE_SIDES : Nat := 0
def SIDE_SIZE : Nat := 184
def POKEMON_SIZE : Nat := 24
def SIDE_POKEMON : Nat := 0
def SIDE_ACTIVE : Nat := 144
def SIDE_ORDER : Nat := 176
def SIDE_LAST_SELECTED_MOVE : Nat := 182
def SIDE_LAST_USED_MOVE : Nat := 183
def POKEMON_STATS : Nat := 0
def POKEMON_MOVES : Nat := 10
def POKEMON_HP : Nat := 18
def POKEMON_STATUS : Nat := 20
def POKEMON_SPECIES : Nat := 21
def POKEMON_TYPES : Nat := 22
def POKEMON_LEVEL : Nat := 23
def ACTIVE_STATS : Nat := 0
def ACTIVE_SPECIES : Nat := 10
def ACTIVE_TYPES : Nat := 11
def ACTIVE_BOOSTS : Nat := 12
def ACTIVE_VOLATILES : Nat := 16
def ACTIVE_MOVES : Nat := 24
def BATTLE_TURN : Nat := 368
/-- Bit offset of the 3-bit confusion counter within the volatiles region. -/
def VOL_CONFUSION : Nat := 18
/-- Bit offset of the 3-bit attacks-left counter within the volatiles region. -/
def VOL_ATTACKS : Nat := 21
/-- Bit offset of the 4-bit transform-target field within the volatiles region. -/
def VOL_TRANSFORM : Nat := 48

/-- Byte address where a player's side region starts
(source: `LAYOUT_OFFSETS['Battle']['sides'] + LAYOUT_SIZES['Side'] * player`). -/
def sideStart (p : Player) : Nat := BATTLE_SIDES + SIDE_SIZE * p.toNat

/-!
## Status (source: `Status` class, `gen1.py` lines 21-200)
-/

/-- A Pokémon's status byte (source: `Status`, holding `_value`). -/
structure Status where
  val : Nat
deriving DecidableEq

/-- Source `Status._SLP = 2`, `_PSN = 3`, `_BRN = 4`, `_FRZ = 5`, `_PAR = 6`. -/
def Status.PSN_BIT : Nat := 3

/-- Source: `Status.sleep_duration`, `return self._value & 0b111`. -/
def Status.sleep_duration (s : Status) : Nat := s.val &&& 0b111

/-- Source: `Status.poisoned`, `((self._value >> Status._PSN) & 1) != 0`. -/
def Status.poisoned (s : Status) : Bool := (s.val >>> Status.PSN_BIT) &&& 1 != 0

/-- Source: `Status.SELF_INFLICTED_SLEEP`, `return Status(0x80 | duration)`. -/
def Status.SELF_INFLICTED_SLEEP (duration : Nat) : Status :=
  ⟨0x80 ||| duration⟩

/-!
## Stat calculator (source: `statcalc`, `gen1.py` lines 356-381)
-/

/-- Upward search for the integer ceiling of the square root: the first `k`
(starting from `k0`, with `fuel` steps available) such that `n ≤ k * k`. -/
def ceilSqrtAux (n : Nat) : Nat → Nat → Nat
  | 0, k => k
  | fuel + 1, k => if n ≤ k * k then k else ceilSqrtAux n fuel (k + 1)

/-- Integer ceiling of the square root: the least `k` with `n ≤ k * k`.
This models `math.ceil(math.sqrt(n))` of the source; double-precision
square root is exact enough that the two agree on the 16-bit stat
experience range the codec feeds it. -/
def ceilSqrt (n : Nat) : Nat := ceilSqrtAux n n 0

/-- Source: `statcalc`.
`evs = min(255, math.ceil(math.sqrt(experience)))`;
`core = (2 * (base_value + dv)) + (evs // 4)`;
`factor = (level + 10) if is_HP else 5`;
`return int(((core * level) // 100) + factor) % 2**16`. -/
def statcalc (base_value : Nat) (is_HP : Bool) (level : Nat) (dv : Nat)
    (experience : Nat) : Nat :=
  let evs := min 255 (ceilSqrt experience)
  let core := 2 * (base_value + dv) + evs / 4
  let factor := if is_HP then level + 10 else 5
  (core * level / 100 + factor) % 2 ^ 16

/-!
## External static data tables

Modelled from the spec, section 4.4: species and move lookup tables are an
external read-only collaborator (`pykmn.data.gen1`, not under `src/`).
-/

/-- A five-stat record (source: `Gen1StatData` with keys
`hp`, `atk`, `def`, `spe`, `spc`; the `def` key is called `defense` here
because `def` is a Lean keyword). -/
structure StatData where
  hp : Nat
  atk : Nat
  defense : Nat
  spe : Nat
  spc : Nat
deriving DecidableEq

/-- Modelled from the spec: one entry of the `SPECIES` table — base stats
and the species' one or two types. -/
structure SpeciesData where
  stats : StatData
  type1 : String
  type2? : Option String

/-- Modelled from the spec: the external static lookup tables
(`SPECIES`, `MOVE_IDS`, `MOVES` (base PP), `SPECIES_IDS`, `TYPES` of
`pykmn.data.gen1`). -/
structure GameData where
  species : String → Option SpeciesData
  move_ids : String → Option Nat
  moves : String → Option Nat
  species_ids : String → Option Nat
  types : List String

/-- A dictionary lookup that raises on a missing key (Python
`TABLE[name]` raising `KeyError`). -/
def lookupId (tbl : String → Option Nat) (name : String) :
    Except PyKMNError Nat :=
  match tbl name with
  | some v => .ok v
  | none => .error (.invalidIdentifier name)

/-- Python `list.index`: position of the first occurrence of `t`,
or failure (`ValueError`) when `t` is absent. -/
def listIndex (t : String) : List String → Option Nat
  | [] => none
  | x :: xs => if x = t then some 0 else (listIndex t xs).map (· + 1)

/-- Source: `TYPES.index(name)` — type name to 4-bit type index. -/
def typeIndex (gd : GameData) (t : String) : Except PyKMNError Nat :=
  match listIndex t gd.types with
  | some i => .ok i
  | none => .error (.invalidIdentifier t)

/-- Source: `TYPES[i]` — 4-bit type index back to a type name (raises
`IndexError` when out of range). -/
def typeName (gd : GameData) (i : Nat) : Except PyKMNError String :=
  match gd.types.get? i with
  | some t => .ok t
  | none => .error (.invalidIdentifier "type index out of range")

/-!
## Pokémon construction data (source: `PokemonData`, `ExtraPokemonData`)
-/

/-- Source: `ExtraPokemonData` — the optional extra dictionary of a
Pokémon's construction tuple; every key is optional. -/
structure ExtraData where
  hp : Option Nat := none
  status : Option Status := none
  level : Option Nat := none
  stats : Option StatData := none
  types : Option (String × String) := none
  move_pp : Option (Nat × Nat × Nat × Nat) := none
  dvs : Option StatData := none
  exp : Option StatData := none

/-- Source: `PokemonData` — species name, moveset (1-4 move names), and the
optional extra-data dictionary. -/
structure PokemonData where
  speciesName : String
  moveNames : List String
  extra : Option ExtraData

/-- The values a Pokémon's fields take after the default-resolution part of
`_initialize_pokemon` (source lines 518-579). -/
structure ResolvedPokemon where
  hp : Nat
  status : Nat
  level : Nat
  stats : StatData
  type1 : String
  type2 : String
  move_pp : Option (Nat × Nat × Nat × Nat)

/-- Source: `_initialize_pokemon` lines 520-579 — resolve defaults
(`hp`/`status`/`level`/`stats`/`types`/`move_pp`/`dvs`/`exp`), then the
species branch: name `'None'` gives zero stats and Normal/Normal types;
a known species computes missing stats with `statcalc` and takes the
species' types; any other name raises `ValueError`. -/
def resolveDefaults (gd : GameData) (pd : PokemonData) :
    Except PyKMNError ResolvedPokemon :=
  let hp? := pd.extra.bind (·.hp)
  let status := (pd.extra.bind (·.status)).elim 0 (·.val)
  let level := (pd.extra.bind (·.level)).getD 100
  let stats? := pd.extra.bind (·.stats)
  let types? := pd.extra.bind (·.types)
  let move_pp := pd.extra.bind (·.move_pp)
  let dvs := (pd.extra.bind (·.dvs)).getD ⟨15, 15, 15, 15, 15⟩
  let exp := (pd.extra.bind (·.exp)).getD ⟨65535, 65535, 65535, 65535, 65535⟩
  if pd.speciesName = "None" then
    let stats := stats?.getD ⟨0, 0, 0, 0, 0⟩
    let types := types?.getD ("Normal", "Normal")
    .ok ⟨hp?.getD stats.hp, status, level, stats, types.1, types.2, move_pp⟩
  else
    match gd.species pd.speciesName with
    | some sd =>
      let stats := match stats? with
        | some s => s
        | none =>
          ⟨statcalc sd.stats.hp true level dvs.hp exp.hp,
           statcalc sd.stats.atk false level dvs.atk exp.atk,
           statcalc sd.stats.defense false level dvs.defense exp.defense,
           statcalc sd.stats.spe false level dvs.spe exp.spe,
           statcalc sd.stats.spc false level dvs.spc exp.spc⟩
      let types := types?.getD (sd.type1, sd.type2?.getD sd.type1)
      .ok ⟨hp?.getD stats.hp, status, level, stats, types.1, types.2, move_pp⟩
    | none => .error (.invalidIdentifier pd.speciesName)

/-- Component `i` of a `move_pp` 4-tuple (source: `move_pp[move_index]`). -/
def tupleGet (pp : Nat × Nat × Nat × Nat) : Nat → Nat
  | 0 => pp.1
  | 1 => pp.2.1
  | 2 => pp.2.2.1
  | _ => pp.2.2.2

/-- Source: `_initialize_pokemon` lines 590-606, one iteration of the move
packing loop: slots past the moveset length get `(0, 0)`; otherwise the
move id is looked up, and the PP is `0` for an empty move, the default
`min(floor(base_pp * 8 / 5), 61)` when no `move_pp` was supplied, or the
supplied `move_pp[move_index]`. -/
def encodeMoveSlot (gd : GameData) (move_names : List String)
    (mpp : Option (Nat × Nat × Nat × Nat)) (i : Nat) :
    Except PyKMNError (Nat × Nat) :=
  match move_names.get? i with
  | none => .ok (0, 0)
  | some name =>
    match lookupId gd.move_ids name with
    | .error e => .error e
    | .ok move_id =>
      match mpp with
      | none =>
        if move_id = 0 then .ok (move_id, 0)
        else
          match lookupId gd.moves name with
          | .error e => .error e
          | .ok base => .ok (move_id, min (base * 8 / 5) 61)
      | some pp => .ok (move_id, tupleGet pp i)

/-- The eight bytes of the four `(move id, pp)` slots (source: the
`for move_index in range(4)` loop of `_initialize_pokemon`). -/
def encodeMoves (gd : GameData) (move_names : List String)
    (mpp : Option (Nat × Nat × Nat × Nat)) : Except PyKMNError (List Nat) :=
  match encodeMoveSlot gd move_names mpp 0 with
  | .error e => .error e
  | .ok s0 =>
  match encodeMoveSlot gd move_names mpp 1 with
  | .error e => .error e
  | .ok s1 =>
  match encodeMoveSlot gd move_names mpp 2 with
  | .error e => .error e
  | .ok s2 =>
  match encodeMoveSlot gd move_names mpp 3 with
  | .error e => .error e
  | .ok s3 =>
    .ok [s0.1, s0.2, s1.1, s1.2, s2.1, s2.2, s3.1, s3.2]

/-- The ten stat bytes (source: the `for stat in [...]` packing loop of
`_initialize_pokemon`). -/
def statBytes (s : StatData) : List Nat :=
  pack_u16_as_bytes s.hp ++ pack_u16_as_bytes s.atk ++
    pack_u16_as_bytes s.defense ++ pack_u16_as_bytes s.spe ++
    pack_u16_as_bytes s.spc

/-- The 24 bytes of one Pokémon record in layout order: stats, moves, hp,
status, species, types, level (source: the sequential `offset += ...`
writes of `_initialize_pokemon` lines 581-632). -/
def encodePokemon (gd : GameData) (pd : PokemonData) :
    Except PyKMNError (List Nat) :=
  match resolveDefaults gd pd with
  | .error e => .error e
  | .ok r =>
  match encodeMoves gd pd.moveNames r.move_pp with
  | .error e => .error e
  | .ok mv =>
  match lookupId gd.species_ids pd.speciesName with
  | .error e => .error e
  | .ok species_id =>
  match typeIndex gd r.type1 with
  | .error e => .error e
  | .ok t0 =>
  match typeIndex gd r.type2 with
  | .error e => .error e
  | .ok t1 =>
    .ok (statBytes r.stats ++ mv ++ pack_u16_as_bytes r.hp ++
      [r.status, species_id, pack_two_u4s t0 t1, r.level])

/-- Source: `_initialize_pokemon` — write one Pokémon record into the
buffer starting at `battle_offset + LAYOUT_OFFSETS['Pokemon']['stats']`. -/
def initPokemon (gd : GameData) (buf : Buf) (battle_offset : Nat)
    (pd : PokemonData) : Except PyKMNError Buf :=
  match encodePokemon gd pd with
  | .error e => .error e
  | .ok bs => .ok (writeBytes buf (battle_offset + POKEMON_STATS) bs)

/-- Source: `Battle.__init__`, `for (i, pkmn) in enumerate(team):
self._initialize_pokemon(side_start + ... + i * pokemon_size, pkmn)`. -/
def initTeam (gd : GameData) (side_start : Nat) :
    Buf → List PokemonData → Nat → Except PyKMNError Buf
  | buf, [], _ => .ok buf
  | buf, pd :: rest, i =>
    match initPokemon gd buf (side_start + SIDE_POKEMON + i * POKEMON_SIZE) pd with
    | .error e => .error e
    | .ok buf2 => initTeam gd side_start buf2 rest (i + 1)

/-- Source: `Battle.__init__`, `for i in range(len(team)):
bytes[side_start + order + i] = i + 1`. -/
def writeOrder (buf : Buf) (side_start : Nat) : Nat → Buf
  | 0 => buf
  | n + 1 => setByte (writeOrder buf side_start n) (side_start + SIDE_ORDER + n) (n + 1)

/-- Source: the per-side body of the construction loop of
`Battle.__init__` lines 457-473 — write `last_selected_move` and
`last_used_move` ids, initialize each team member, then write the order
permutation. -/
def initSide (gd : GameData) (buf : Buf) (side_start : Nat)
    (last_selected last_used : String) (team : List PokemonData) :
    Except PyKMNError Buf :=
  match lookupId gd.move_ids last_selected with
  | .error e => .error e
  | .ok lsm =>
  match lookupId gd.move_ids last_used with
  | .error e => .error e
  | .ok lum =>
    let buf := setByte buf (side_start + SIDE_LAST_SELECTED_MOVE) lsm
    let buf := setByte buf (side_start + SIDE_LAST_USED_MOVE) lum
    match initTeam gd side_start buf team 0 with
    | .error e => .error e
    | .ok buf2 => .ok (writeOrder buf2 side_start team.length)

/-- Source: the two iterations of the side-construction loop of
`Battle.__init__` (p1's side, then p2's side), over the zero-initialized
buffer. -/
def initSides (gd : GameData) (p1_team p2_team : List PokemonData)
    (ls1 lu1 ls2 lu2 : String) : Except PyKMNError Buf :=
  match initSide gd zeroBuf BATTLE_SIDES ls1 lu1 p1_team with
  | .error e => .error e
  | .ok buf => initSide gd buf (BATTLE_SIDES + SIDE_SIZE) ls2 lu2 p2_team

/-- The team of a given player, among the two teams passed to
`Battle.__init__`. -/
def teamOf (p : Player) (p1_team p2_team : List PokemonData) :
    List PokemonData :=
  match p with
  | .P1 => p1_team
  | .P2 => p2_team

/-- The RNG seed argument of `Battle.__init__`
(source: `rng_seed: Union[int, Gen1RNGSeed, None] = None`). -/
inductive RngSeed where
  | unspecified
  | int (n : Nat)
  | list (l : List Nat)

/-- Whether a seed is the list form. -/
def RngSeed.isList : RngSeed → Bool
  | .list _ => true
  | _ => false

/-- Whether a seed is the integer form. -/
def RngSeed.isInt : RngSeed → Bool
  | .int _ => true
  | _ => false

/-- Modelled from the spec: the build-variant facts of the linked libpkmn
binding that `Battle.__init__` consults (`pykmn.engine.libpkmn` is not
under `src/`): the Showdown-compatibility flag, and the generator-state
bytes produced by the delegated `ShowdownRNG._initialize` for a given
64-bit seed (the spec: this core "does not implement the generator's
algorithm itself, only locates and invokes it"). -/
structure Engine where
  is_showdown_compatible : Bool
  psrng_init : Nat → List Nat

/-- Source: `Battle.__init__` lines 453-516 — initialize both sides, write
the turn and last-damage counters, then dispatch on the binding variant:
Showdown-compatible bindings write two u16 move indexes and delegate the
64-bit seed to the embedded generator (rejecting a list seed); other
bindings pack the move indexes into one byte and write ten raw seed bytes
(rejecting an integer seed).  `default_int_seed` / `default_byte_seed`
stand for the `random.randrange` draws used when no seed is supplied. -/
def initBattle (e : Engine) (gd : GameData) (p1_team p2_team : List PokemonData)
    (ls1 lu1 ls2 lu2 : String)
    (start_turn last_damage p1_move_idx p2_move_idx : Nat)
    (rng_seed : RngSeed) (default_int_seed : Nat) (default_byte_seed : List Nat) :
    Except PyKMNError Buf :=
  match initSides gd p1_team p2_team ls1 lu1 ls2 lu2 with
  | .error e => .error e
  | .ok buf =>
    let buf := writeBytes buf BATTLE_TURN (pack_u16_as_bytes start_turn)
    let buf := writeBytes buf (BATTLE_TURN + 2) (pack_u16_as_bytes last_damage)
    if e.is_showdown_compatible then
      let buf := writeBytes buf (BATTLE_TURN + 4) (pack_u16_as_bytes p1_move_idx)
      let buf := writeBytes buf (BATTLE_TURN + 6) (pack_u16_as_bytes p2_move_idx)
      match rng_seed with
      | .list _ =>
        .error (.seedModeMismatch
          "Cannot provide a list as RNG seed to a Showdown-compatible libpkmn")
      | .unspecified => .ok (writeBytes buf (BATTLE_TURN + 8) (e.psrng_init default_int_seed))
      | .int n => .ok (writeBytes buf (BATTLE_TURN + 8) (e.psrng_init n))
    else
      let buf := setByte buf (BATTLE_TURN + 4) (pack_two_u4s p1_move_idx p2_move_idx)
      match rng_seed with
      | .int _ =>
        .error (.seedModeMismatch
          "Cannot provide an integer as RNG seed to a non-Showdown-compatible libpkmn")
      | .unspecified => .ok (writeBytes buf (BATTLE_TURN + 5) default_byte_seed)
      | .list l => .ok (writeBytes buf (BATTLE_TURN + 5) l)

/-!
## Battle accessors (source: methods of the `Battle` class)
-/

namespace Battle

/-- A six-boost state (source: `BoostData`; the `def` key is called
`defense` because `def` is a Lean keyword). -/
structure BoostData where
  atk : Int
  defense : Int
  spe : Int
  spc : Int
  accuracy : Int
  evasion : Int
deriving DecidableEq

/-- A partial boost update (source: `PartialBoostData` — every key of
`BoostData`, all optional). -/
structure BoostPatch where
  atk : Option Int := none
  defense : Option Int := none
  spe : Option Int := none
  spc : Option Int := none
  accuracy : Option Int := none
  evasion : Option Int := none

/-- Byte address of a player's active-Pokémon boosts
(source: the offset computation of `Battle.boosts`). -/
def boostsOffset (p : Player) : Nat :=
  BATTLE_SIDES + SIDE_SIZE * p.toNat + SIDE_ACTIVE + ACTIVE_BOOSTS

/-- Source: `Battle.boosts` — unpack three bytes of two signed nibbles
each into the six boost values. -/
def boosts (buf : Buf) (p : Player) : BoostData :=
  let o := boostsOffset p
  let ad := unpack_two_i4s (buf o)
  let ss := unpack_two_i4s (buf (o + 1))
  let ae := unpack_two_i4s (buf (o + 2))
  ⟨ad.1, ad.2, ss.1, ss.2, ae.1, ae.2⟩

/-- Source: `Battle.set_boosts` — read the current boosts once, overlay the
supplied fields, and write back the three packed bytes. -/
def set_boosts (buf : Buf) (p : Player) (nb : BoostPatch) : Buf :=
  let o := boostsOffset p
  let old := boosts buf p
  let buf := setByte buf o
    (pack_two_i4s (nb.atk.getD old.atk) (nb.defense.getD old.defense))
  let buf := setByte buf (o + 1)
    (pack_two_i4s (nb.spe.getD old.spe) (nb.spc.getD old.spc))
  setByte buf (o + 2)
    (pack_two_i4s (nb.accuracy.getD old.accuracy) (nb.evasion.getD old.evasion))

/-- Byte address of a roster Pokémon's packed type pair
(source: the offset computation of `Battle.types`). -/
def typesOffset (p : Player) (slot : Nat) : Nat :=
  BATTLE_SIDES + SIDE_SIZE * p.toNat + SIDE_POKEMON +
    POKEMON_SIZE * (slot - 1) + POKEMON_TYPES

/-- Source: `Battle.types` — unpack the two 4-bit type indices and return
`(TYPES[t1], TYPES[t2])` when they differ, else the one-element tuple
`(TYPES[t1],)`. -/
def types (gd : GameData) (buf : Buf) (p : Player) (slot : Nat) :
    Except PyKMNError (List String) :=
  let u := unpack_two_u4s (buf (typesOffset p slot))
  if u.2 ≠ u.1 then
    match typeName gd u.1 with
    | .error e => .error e
    | .ok a =>
      match typeName gd u.2 with
      | .error e => .error e
      | .ok b => .ok [a, b]
  else
    match typeName gd u.1 with
    | .error e => .error e
    | .ok a => .ok [a]

/-- Source: `Battle.set_types` — write `pack_two_u4s(TYPES.index(new[0]),
TYPES.index(new[1]))`. -/
def set_types (gd : GameData) (buf : Buf) (p : Player) (slot : Nat)
    (nt : String × String) : Except PyKMNError Buf :=
  match typeIndex gd nt.1 with
  | .error e => .error e
  | .ok i0 =>
  match typeIndex gd nt.2 with
  | .error e => .error e
  | .ok i1 => .ok (setByte buf (typesOffset p slot) (pack_two_u4s i0 i1))

/-- Byte address of the active Pokémon's packed type pair
(source: the offset computation of `Battle.active_pokemon_types`). -/
def activeTypesOffset (p : Player) : Nat :=
  BATTLE_SIDES + SIDE_SIZE * p.toNat + SIDE_ACTIVE + ACTIVE_TYPES

/-- Source: `Battle.active_pokemon_types` — same collapse rule as
`Battle.types`, over the active-Pokémon overlay record. -/
def active_pokemon_types (gd : GameData) (buf : Buf) (p : Player) :
    Except PyKMNError (List String) :=
  let u := unpack_two_u4s (buf (activeTypesOffset p))
  if u.2 ≠ u.1 then
    match typeName gd u.1 with
    | .error e => .error e
    | .ok a =>
      match typeName gd u.2 with
      | .error e => .error e
      | .ok b => .ok [a, b]
  else
    match typeName gd u.1 with
    | .error e => .error e
    | .ok a => .ok [a]

/-- Byte address where a player's volatiles region starts
(source: the shared offset computation of the volatile accessors). -/
def volatilesOffset (p : Player) : Nat :=
  BATTLE_SIDES + SIDE_SIZE * p.toNat + SIDE_ACTIVE + ACTIVE_VOLATILES

/-- Source: `Battle.set_confusion_turns_left` — assert
`new_turns_left <= 2**3 and new_turns_left >= 0` (the source's assert,
off by one from its own message), then insert the value as a 3-bit field
at the `confusion` bit offset.  A value the primitive rejects surfaces as
an OutOfRangeValue error. -/
def set_confusion_turns_left (buf : Buf) (p : Player) (new_turns_left : Nat) :
    Except PyKMNError Buf :=
  if new_turns_left ≤ 2 ^ 3 then
    let byte_offset := volatilesOffset p + VOL_CONFUSION / 8
    let bit_offset := VOL_CONFUSION % 8
    match insert_unsigned_int_at_offset (buf byte_offset) new_turns_left bit_offset 3 with
    | some b => .ok (setByte buf byte_offset b)
    | none => .error (.outOfRange "bit-field write exceeds its declared width")
  else
    .error (.outOfRange "new_turns_left must be an unsigned 3-bit integer")

/-- Source: `Battle.set_attacks_left` — same shape as
`set_confusion_turns_left` at the `attacks` bit offset. -/
def set_attacks_left (buf : Buf) (p : Player) (new_attacks_left : Nat) :
    Except PyKMNError Buf :=
  if new_attacks_left ≤ 2 ^ 3 then
    let byte_offset := volatilesOffset p + VOL_ATTACKS / 8
    let bit_offset := VOL_ATTACKS % 8
    match insert_unsigned_int_at_offset (buf byte_offset) new_attacks_left bit_offset 3 with
    | some b => .ok (setByte buf byte_offset b)
    | none => .error (.outOfRange "bit-field write exceeds its declared width")
  else
    .error (.outOfRange "new_attacks_left must be an unsigned 3-bit integer")

/-- Source: `Battle.transformed_into` — extract the 4-bit transform field;
the slot is taken as `transform_u4 & 3` and the player as
`transform_u4 >> 3`. -/
def transformed_into (buf : Buf) (p : Player) : Player × Nat :=
  let byte_offset := volatilesOffset p + VOL_TRANSFORM / 8
  let bit_offset := VOL_TRANSFORM % 8
  let transform_u4 :=
    extract_unsigned_int_at_offset (buf byte_offset) bit_offset 4
  (if transform_u4 >>> 3 = 0 then Player.P1 else Player.P2, transform_u4 &&& 3)

/-- Source: `Battle.set_transformed_into` — pack
`(player << 3) | slot` and insert it as the 4-bit transform field. -/
def set_transformed_into (buf : Buf) (p : Player) (t : Player × Nat) :
    Option Buf :=
  let byte_offset := volatilesOffset p + VOL_TRANSFORM / 8
  let bit_offset := VOL_TRANSFORM % 8
  let transform_u4 := (t.1.toNat <<< 3) ||| t.2
  (insert_unsigned_int_at_offset (buf byte_offset) transform_u4 bit_offset 4).map
    (setByte buf byte_offset)

end Battle

/-!
## Turn protocol (source: `possible_choices` / `update`; spec section 4.6)
-/

/-- Modelled from the spec, section 6: the external engine boundary —
`pkmn_result_p1` / `pkmn_result_p2` extract the requested choice kind for
each player from a packed outcome, and `pkmn_gen1_battle_choices`
enumerates the legal choices of that kind, returning the count and the
filled choice buffer. -/
structure ExternEngine where
  result_p1 : Nat → Nat
  result_p2 : Nat → Nat
  battle_choices : Buf → Player → Nat → Nat × (Nat → Nat)

/-- Source: `Battle._fill_choice_buffer` — pick the requested kind for the
player from the previous result and ask the engine to enumerate. -/
def fillChoiceBuffer (ee : ExternEngine) (buf : Buf) (player : Player)
    (previous_turn_result : Nat) : Nat × (Nat → Nat) :=
  let requested_kind :=
    if player = Player.P1 then ee.result_p1 previous_turn_result
    else ee.result_p2 previous_turn_result
  ee.battle_choices buf player requested_kind

/-- Source: `Battle.possible_choices` — enumerate, raise `Softlock` when
zero choices are available, otherwise return the choices. -/
def possible_choices (ee : ExternEngine) (buf : Buf) (player : Player)
    (previous_turn_result : Nat) : Except PyKMNError (List Nat) :=
  let r := fillChoiceBuffer ee buf player previous_turn_result
  if r.1 = 0 then .error (.softlock "Zero choices are available")
  else .ok ((List.range r.1).map r.2)

/-- Modelled from the spec, section 4.6: one turn of the two-phase
protocol — enumerate both sides' legal choices, pick one for each side,
and only then invoke the engine's update entry point (`update_raw`,
modelled by the abstract `update` argument). -/
def turnStep (ee : ExternEngine) (update : Buf → Nat → Nat → Buf × Nat)
    (buf : Buf) (previous_turn_result : Nat) (pick : List Nat → Nat) :
    Except PyKMNError (Buf × Nat) :=
  match possible_choices ee buf Player.P1 previous_turn_result with
  | .error e => .error e
  | .ok c1 =>
  match possible_choices ee buf Player.P2 previous_turn_result with
  | .error e => .error e
  | .ok c2 => .ok (update buf (pick c1) (pick c2))

/-!
## Concrete instances for evaluation
-/

/-- Modelled from the spec: a minimal concrete instance of the external
lookup tables (`pykmn.data.gen1`, not under `src/`) — the Gen 1 type list,
the `None` sentinel entries, and one species and move. -/
def sampleData : GameData where
  species := fun n =>
    if n = "Pikachu" then
      some ⟨⟨35, 55, 30, 90, 50⟩, "Electric", none⟩
    else none
  move_ids := fun n =>
    if n = "None" then some 0
    else if n = "Tackle" then some 33
    else none
  moves := fun n => if n = "Tackle" then some 35 else none
  species_ids := fun n =>
    if n = "None" then some 0
    else if n = "Pikachu" then some 25
    else none
  types := ["Normal", "Fighting", "Flying", "Poison", "Ground", "Rock",
    "Bug", "Ghost", "Fire", "Water", "Grass", "Electric", "Psychic",
    "Ice", "Dragon"]

/-- A Showdown-compatible binding whose delegated generator zero-fills its
state region. -/
def sampleEngine : Engine where
  is_showdown_compatible := true
  psrng_init := fun _ => [0, 0, 0, 0, 0, 0, 0, 0]

/-- A plain Pokémon with one move and no extra data. -/
def samplePokemon : PokemonData := ⟨"Pikachu", ["Tackle"], none⟩

/-- A Pokémon whose moveset names the empty move `'None'` while an explicit
`move_pp` tuple supplies a nonzero PP for that slot. -/
def noneMovePokemon : PokemonData :=
  ⟨"Pikachu", ["None"], some { move_pp := some (5, 0, 0, 0) }⟩

/-- An external engine that always enumerates zero choices. -/
def eeZero : ExternEngine where
  result_p1 := fun _ => 0
  result_p2 := fun _ => 0
  battle_choices := fun _ _ _ => (0, fun _ => 0)

/-- A buffer whose player-1 boosts are `{atk: 1, def: 0, spe: 1, spc: 0,
accuracy: 0, evasion: 0}`. -/
def boostsDemoBuf : Buf :=
  Battle.set_boosts zeroBuf Player.P1
    { atk := some 1, defense := some 0, spe := some 1, spc := some 0,
      accuracy := some 0, evasion := some 0 }

/-- A Pokémon whose moveset names the empty move with no explicit PP. -/
def noneMoveNoPP : PokemonData := ⟨"Pikachu", ["None"], none⟩

/-!
## Basic buffer lemmas
-/

theorem setByte_same (buf : Buf) (i v : Nat) : setByte buf i v i = v := by
  simp [setByte]

theorem setByte_other (buf : Buf) (i v j : Nat) (h : j ≠ i) :
    setByte buf i v j = buf j := by
  simp [setByte, h]

theorem writeBytes_outside (l : List Nat) :
    ∀ (buf : Buf) (start a : Nat), (a < start ∨ start + l.length ≤ a) →
      writeBytes buf start l a = buf a := by
  induction l with
  | nil => intro buf start a _; rfl
  | cons v rest ih =>
    intro buf start a h
    simp only [List.length_cons] at h
    rw [writeBytes, ih (setByte buf start v) (start + 1) a (by omega)]
    exact setByte_other buf start v a (by omega)

theorem writeBytes_getD (l : List Nat) :
    ∀ (buf : Buf) (start k : Nat), k < l.length →
      writeBytes buf start l (start + k) = l.getD k 0 := by
  induction l with
  | nil => intro _ _ _ h; simp at h
  | cons v rest ih =>
    intro buf start k hk
    match k with
    | 0 =>
      rw [writeBytes, writeBytes_outside rest _ _ _ (by omega)]
      simpa using setByte_same buf start v
    | k + 1 =>
      have : start + (k + 1) = (start + 1) + k := by omega
      rw [writeBytes, this, ih _ (start + 1) k (by simpa using hk)]
      rfl

/-!
## Nibble pack/unpack lemmas
-/

theorem i4FromNat_range (n : Nat) (hn : n < 16) :
    -8 ≤ i4FromNat n ∧ i4FromNat n ≤ 7 := by
  unfold i4FromNat
  split <;> omega

theorem unpack_two_i4s_fst_range (c : Nat) :
    -8 ≤ (unpack_two_i4s c).1 ∧ (unpack_two_i4s c).1 ≤ 7 :=
  i4FromNat_range _ (Nat.mod_lt _ (by omega))

theorem unpack_two_i4s_snd_range (c : Nat) :
    -8 ≤ (unpack_two_i4s c).2 ∧ (unpack_two_i4s c).2 ≤ 7 :=
  i4FromNat_range _ (Nat.mod_lt _ (by omega))

theorem i4_roundtrip (a b : Int) (ha1 : -8 ≤ a) (ha2 : a ≤ 7)
    (hb1 : -8 ≤ b) (hb2 : b ≤ 7) :
    unpack_two_i4s (pack_two_i4s a b) = (a, b) := by
  have hma : (a % 16).toNat < 16 := by omega
  have hmb : (b % 16).toNat < 16 := by omega
  unfold pack_two_i4s unpack_two_i4s i4FromNat
  have h1 : ((a % 16).toNat + 16 * (b % 16).toNat) % 16 = (a % 16).toNat := by
    omega
  have h2 : ((a % 16).toNat + 16 * (b % 16).toNat) / 16 % 16 = (b % 16).toNat := by
    omega
  rw [h1, h2]
  simp only [Prod.mk.injEq]
  constructor <;> (split <;> omega)

theorem u4_roundtrip (a b : Nat) (ha : a < 16) (hb : b < 16) :
    unpack_two_u4s (pack_two_u4s a b) = (a, b) := by
  unfold pack_two_u4s unpack_two_u4s
  simp only [Prod.mk.injEq]
  constructor <;> omega

/-!
## C1 — the stat calculator on the spec's concrete example
-/

set_option maxRecDepth 20000 in
/-- C1 (counterexample): `statcalc(base_value=100, is_HP=False, level=100,
dv=15, experience=65535)` does not return 299 as the spec's example
states. -/
theorem statcalc_example_ne_299 : statcalc 100 false 100 15 65535 ≠ 299 := by
  decide

set_option maxRecDepth 20000 in
/-- C1 (amended): on the spec's concrete example the stat calculator
returns 298: `evs = min(255, 256) = 255`, `core = 2*(100+15) + 63 = 293`,
`293*100/100 + 5 = 298`. -/
theorem statcalc_example_eq_298 : statcalc 100 false 100 15 65535 = 298 := by
  decide

/-!
## C5 — the self-inflicted sleep status byte
-/

/-- C5 (counterexample): `Status.SELF_INFLICTED_SLEEP(1)` does not have
bit 3 set (bit 3 is the poison flag in this codec); the flag it sets is
bit 7. -/
theorem self_inflicted_sleep_bit3_clear :
    (Status.SELF_INFLICTED_SLEEP 1).val.testBit 3 = false ∧
      (Status.SELF_INFLICTED_SLEEP 1).val.testBit 7 = true ∧
      (Status.SELF_INFLICTED_SLEEP 1).poisoned = false := by
  decide

/-- C5 (amended): for every duration `d ≤ 7` the raw status byte produced
by `Status.SELF_INFLICTED_SLEEP(d)` has bit 7 (the self-inflicted-sleep
flag) set, its bits 0-2 equal `d` (so `sleep_duration` reads `d` back),
and no bit other than bits 0-2 and bit 7 is set. -/
theorem self_inflicted_sleep_encoding (d : Nat) (hd : d ≤ 7) :
    (Status.SELF_INFLICTED_SLEEP d).val.testBit 7 = true ∧
      (Status.SELF_INFLICTED_SLEEP d).sleep_duration = d ∧
      ∀ k, 3 ≤ k → k ≠ 7 → (Status.SELF_INFLICTED_SLEEP d).val.testBit k = false := by
  interval_cases d <;>
    refine ⟨by decide, by decide, ?_⟩ <;>
    · intro k hk3 hk7
      rcases Nat.lt_or_ge k 8 with h8 | h8
      · interval_cases k <;> first | (exact absurd rfl hk7) | decide
      · exact Nat.testBit_lt_two_pow
          (lt_of_lt_of_le (by decide)
            (Nat.pow_le_pow_right (by decide) h8))

/-- C5 witness: the amended statement at the concrete duration 3. -/
theorem self_inflicted_sleep_encoding_witness :
    3 ≤ 7 ∧ (Status.SELF_INFLICTED_SLEEP 3).sleep_duration = 3 :=
  ⟨by decide, (self_inflicted_sleep_encoding 3 (by decide)).2.1⟩

/-!
## C2 — partial boost updates preserve untouched fields
-/

/-- C2: for every player, every current buffer, and every partial boost
dictionary whose supplied values lie in [-6, 6], after `set_boosts` each
supplied stat reads back (via `boosts`) as the supplied value and every
stat not supplied reads back exactly its prior value. -/
theorem set_boosts_partial_update (buf : Buf) (p : Player) (nb : Battle.BoostPatch)
    (h1 : ∀ v, nb.atk = some v → -6 ≤ v ∧ v ≤ 6)
    (h2 : ∀ v, nb.defense = some v → -6 ≤ v ∧ v ≤ 6)
    (h3 : ∀ v, nb.spe = some v → -6 ≤ v ∧ v ≤ 6)
    (h4 : ∀ v, nb.spc = some v → -6 ≤ v ∧ v ≤ 6)
    (h5 : ∀ v, nb.accuracy = some v → -6 ≤ v ∧ v ≤ 6)
    (h6 : ∀ v, nb.evasion = some v → -6 ≤ v ∧ v ≤ 6) :
    Battle.boosts (Battle.set_boosts buf p nb) p =
      { atk := nb.atk.getD (Battle.boosts buf p).atk,
        defense := nb.defense.getD (Battle.boosts buf p).defense,
        spe := nb.spe.getD (Battle.boosts buf p).spe,
        spc := nb.spc.getD (Battle.boosts buf p).spc,
        accuracy := nb.accuracy.getD (Battle.boosts buf p).accuracy,
        evasion := nb.evasion.getD (Battle.boosts buf p).evasion } := by
  have hrange : ∀ (f : Option Int) (old : Int), -8 ≤ old → old ≤ 7 →
      (∀ v, f = some v → -6 ≤ v ∧ v ≤ 6) → -8 ≤ f.getD old ∧ f.getD old ≤ 7 := by
    intro f old ho1 ho2 hf
    cases hh : f with
    | none => simpa using ⟨ho1, ho2⟩
    | some v => have := hf v hh; simp only [Option.getD_some]; omega
  have rATK := hrange nb.atk _
    (unpack_two_i4s_fst_range (buf (Battle.boostsOffset p))).1
    (unpack_two_i4s_fst_range (buf (Battle.boostsOffset p))).2 h1
  have rDEF := hrange nb.defense _
    (unpack_two_i4s_snd_range (buf (Battle.boostsOffset p))).1
    (unpack_two_i4s_snd_range (buf (Battle.boostsOffset p))).2 h2
  have rSPE := hrange nb.spe _
    (unpack_two_i4s_fst_range (buf (Battle.boostsOffset p + 1))).1
    (unpack_two_i4s_fst_range (buf (Battle.boostsOffset p + 1))).2 h3
  have rSPC := hrange nb.spc _
    (unpack_two_i4s_snd_range (buf (Battle.boostsOffset p + 1))).1
    (unpack_two_i4s_snd_range (buf (Battle.boostsOffset p + 1))).2 h4
  have rACC := hrange nb.accuracy _
    (unpack_two_i4s_fst_range (buf (Battle.boostsOffset p + 2))).1
    (unpack_two_i4s_fst_range (buf (Battle.boostsOffset p + 2))).2 h5
  have rEVA := hrange nb.evasion _
    (unpack_two_i4s_snd_range (buf (Battle.boostsOffset p + 2))).1
    (unpack_two_i4s_snd_range (buf (Battle.boostsOffset p + 2))).2 h6
  have e0 : Battle.set_boosts buf p nb (Battle.boostsOffset p) =
      pack_two_i4s (nb.atk.getD (unpack_two_i4s (buf (Battle.boostsOffset p))).1)
        (nb.defense.getD (unpack_two_i4s (buf (Battle.boostsOffset p))).2) := by
    simp only [Battle.set_boosts, Battle.boosts]
    rw [setByte_other _ _ _ _ (by omega), setByte_other _ _ _ _ (by omega),
      setByte_same]
  have e1 : Battle.set_boosts buf p nb (Battle.boostsOffset p + 1) =
      pack_two_i4s (nb.spe.getD (unpack_two_i4s (buf (Battle.boostsOffset p + 1))).1)
        (nb.spc.getD (unpack_two_i4s (buf (Battle.boostsOffset p + 1))).2) := by
    simp only [Battle.set_boosts, Battle.boosts]
    rw [setByte_other _ _ _ _ (by omega), setByte_same]
  have e2 : Battle.set_boosts buf p nb (Battle.boostsOffset p + 2) =
      pack_two_i4s
        (nb.accuracy.getD (unpack_two_i4s (buf (Battle.boostsOffset p + 2))).1)
        (nb.evasion.getD (unpack_two_i4s (buf (Battle.boostsOffset p + 2))).2) := by
    simp only [Battle.set_boosts, Battle.boosts]
    rw [setByte_same]
  simp only [Battle.boosts]
  rw [e0, e1, e2,
    i4_roundtrip _ _ rATK.1 rATK.2 rDEF.1 rDEF.2,
    i4_roundtrip _ _ rSPE.1 rSPE.2 rSPC.1 rSPC.2,
    i4_roundtrip _ _ rACC.1 rACC.2 rEVA.1 rEVA.2]

/-- C2 witness: the spec's concrete example — setting only `{'atk': -2}`
on boosts `{atk: 1, def: 0, spe: 1, spc: 0, accuracy: 0, evasion: 0}`
yields `{atk: -2, def: 0, spe: 1, spc: 0, accuracy: 0, evasion: 0}`. -/
theorem set_boosts_partial_update_witness :
    Battle.boosts
        (Battle.set_boosts boostsDemoBuf Player.P1 { atk := some (-2) })
        Player.P1 =
      ⟨-2, 0, 1, 0, 0, 0⟩ := by
  have h := set_boosts_partial_update boostsDemoBuf Player.P1 { atk := some (-2) }
    (fun v hv => by injection hv with h2; subst h2; decide)
    (fun v hv => Option.noConfusion hv)
    (fun v hv => Option.noConfusion hv)
    (fun v hv => Option.noConfusion hv)
    (fun v hv => Option.noConfusion hv)
    (fun v hv => Option.noConfusion hv)
  rw [h]
  decide

/-!
## C4 — the transform-target round trip
-/

/-- C4 (code bug): writing the transform target `(P1, slot 4)` into a
fresh buffer and reading it back yields `(P1, 0)`, not `(P1, 4)`: the
setter packs the slot into the low three bits of the 4-bit field, but the
getter masks the field with `& 3`, losing the slot's high bit. -/
theorem transform_roundtrip_bug :
    (Battle.set_transformed_into zeroBuf Player.P1 (Player.P1, 4)).map
        (fun b => Battle.transformed_into b Player.P1) =
      some (Player.P1, 0) ∧ (0 : Nat) ≠ 4 := by
  decide

/-!
## C7 — out-of-range counter writes are rejected
-/

/-- C7: for every value greater than 7 (exceeding the declared 3-bit
width) and every player, `set_confusion_turns_left` and
`set_attacks_left` fail with an out-of-range error instead of producing
an updated buffer: values above 8 fail the setter's own assertion, and 8
(which the source's off-by-one assertion `<= 2**3` lets through) is
rejected by the insertion primitive's width check. -/
theorem set_counter_rejects_over_seven (buf : Buf) (p : Player) (v : Nat)
    (hv : 7 < v) :
    failsOutOfRange (Battle.set_confusion_turns_left buf p v) = true ∧
      failsOutOfRange (Battle.set_attacks_left buf p v) = true := by
  constructor
  · unfold Battle.set_confusion_turns_left
    split
    · rename_i hle
      have h8 : v = 8 := by omega
      subst h8
      simp [insert_unsigned_int_at_offset, failsOutOfRange]
    · simp [failsOutOfRange]
  · unfold Battle.set_attacks_left
    split
    · rename_i hle
      have h8 : v = 8 := by omega
      subst h8
      simp [insert_unsigned_int_at_offset, failsOutOfRange]
    · simp [failsOutOfRange]

/-- C7 witness: the concrete value 8 is rejected by both setters. -/
theorem set_counter_rejects_over_seven_witness :
    7 < 8 ∧
      failsOutOfRange (Battle.set_confusion_turns_left zeroBuf Player.P1 8) = true ∧
      failsOutOfRange (Battle.set_attacks_left zeroBuf Player.P1 8) = true :=
  ⟨by decide, (set_counter_rejects_over_seven zeroBuf Player.P1 8 (by decide)).1,
    (set_counter_rejects_over_seven zeroBuf Player.P1 8 (by decide)).2⟩

/-!
## C3 — zero enumerated choices signal Softlock, and no update runs
-/

/-- C3: for every player and every previous-turn result, if the engine's
choice enumeration yields zero choices then `possible_choices` signals the
Softlock error kind (an error, not a battle-over outcome), one protocol
turn never succeeds, and the update entry point is never consulted (the
turn step's result does not depend on it). -/
theorem possible_choices_softlock (ee : ExternEngine) (buf : Buf) (p : Player)
    (prev : Nat) (h : (fillChoiceBuffer ee buf p prev).1 = 0) :
    possible_choices ee buf p prev =
        .error (.softlock "Zero choices are available") ∧
      (∀ (update : Buf → Nat → Nat → Buf × Nat) (pick : List Nat → Nat) r,
        turnStep ee update buf prev pick ≠ .ok r) ∧
      (∀ (update1 update2 : Buf → Nat → Nat → Buf × Nat) (pick : List Nat → Nat),
        turnStep ee update1 buf prev pick = turnStep ee update2 buf prev pick) := by
  have hp : possible_choices ee buf p prev =
      .error (.softlock "Zero choices are available") := by
    unfold possible_choices
    simp [h]
  refine ⟨hp, ?_, ?_⟩
  · intro update pick r
    unfold turnStep
    cases p with
    | P1 => rw [hp]; simp
    | P2 =>
      cases hq : possible_choices ee buf Player.P1 prev with
      | error e => simp
      | ok c1 => rw [hp]; simp
  · intro u1 u2 pick
    unfold turnStep
    cases p with
    | P1 => rw [hp]
    | P2 =>
      cases hq : possible_choices ee buf Player.P1 prev with
      | error e => rfl
      | ok c1 => rw [hp]

/-- C3 witness: with an engine that enumerates zero choices,
`possible_choices` returns the Softlock error. -/
theorem possible_choices_softlock_witness :
    possible_choices eeZero zeroBuf Player.P1 0 =
      .error (.softlock "Zero choices are available") :=
  (possible_choices_softlock eeZero zeroBuf Player.P1 0 rfl).1

/-!
## C10 — type getters collapse equal type indices
-/

theorem listIndex_get (t : String) :
    ∀ (l : List String) (i : Nat), listIndex t l = some i → l.get? i = some t := by
  intro l
  induction l with
  | nil => intro i h; simp [listIndex] at h
  | cons x xs ih =>
    intro i h
    unfold listIndex at h
    split at h
    · rename_i hx
      injection h with h
      subst h
      simpa using hx
    · cases hx2 : listIndex t xs with
      | none => rw [hx2] at h; simp at h
      | some j =>
        rw [hx2] at h
        have hji : j + 1 = i := by simpa using h
        subst hji
        simpa using ih j hx2

theorem listIndex_lt_length (t : String) (l : List String) (i : Nat)
    (h : listIndex t l = some i) : i < l.length := by
  have hg := listIndex_get t l i h
  by_contra hge
  rw [List.get?_eq_none.mpr (by omega)] at hg
  cases hg

/-- C10: (a) the roster type getter returns a one-element list exactly when
the two stored 4-bit type indices are equal; (b) likewise for the
active-Pokémon type getter; (c) consequently writing the pair `(t, t)`
via `set_types` and reading back via `types` yields the single-element
list `[t]`. -/
theorem types_collapse_equal (gd : GameData) :
    (∀ (buf : Buf) (p : Player) (slot : Nat) (l : List String),
      Battle.types gd buf p slot = .ok l →
      (l.length = 1 ↔ (unpack_two_u4s (buf (Battle.typesOffset p slot))).2 =
        (unpack_two_u4s (buf (Battle.typesOffset p slot))).1)) ∧
    (∀ (buf : Buf) (p : Player) (l : List String),
      Battle.active_pokemon_types gd buf p = .ok l →
      (l.length = 1 ↔ (unpack_two_u4s (buf (Battle.activeTypesOffset p))).2 =
        (unpack_two_u4s (buf (Battle.activeTypesOffset p))).1)) ∧
    (∀ (buf : Buf) (p : Player) (slot : Nat) (t : String) (buf2 : Buf),
      gd.types.length ≤ 16 →
      Battle.set_types gd buf p slot (t, t) = .ok buf2 →
      Battle.types gd buf2 p slot = .ok [t]) := by
  refine ⟨?_, ?_, ?_⟩
  · intro buf p slot l hl
    unfold Battle.types at hl
    simp only [ne_eq] at hl
    split at hl
    · rename_i hne
      cases h1 : typeName gd (unpack_two_u4s (buf (Battle.typesOffset p slot))).1 with
      | error e => rw [h1] at hl; cases hl
      | ok a =>
        rw [h1] at hl
        cases h2 : typeName gd (unpack_two_u4s (buf (Battle.typesOffset p slot))).2 with
        | error e => rw [h2] at hl; cases hl
        | ok b =>
          rw [h2] at hl
          injection hl with hl
          subst hl
          simp [hne]
    · rename_i heq
      rw [not_not] at heq
      cases h1 : typeName gd (unpack_two_u4s (buf (Battle.typesOffset p slot))).1 with
      | error e => rw [h1] at hl; cases hl
      | ok a =>
        rw [h1] at hl
        injection hl with hl
        subst hl
        simpa using heq
  · intro buf p l hl
    unfold Battle.active_pokemon_types at hl
    simp only [ne_eq] at hl
    split at hl
    · rename_i hne
      cases h1 : typeName gd (unpack_two_u4s (buf (Battle.activeTypesOffset p))).1 with
      | error e => rw [h1] at hl; cases hl
      | ok a =>
        rw [h1] at hl
        cases h2 : typeName gd (unpack_two_u4s (buf (Battle.activeTypesOffset p))).2 with
        | error e => rw [h2] at hl; cases hl
        | ok b =>
          rw [h2] at hl
          injection hl with hl
          subst hl
          simp [hne]
    · rename_i heq
      rw [not_not] at heq
      cases h1 : typeName gd (unpack_two_u4s (buf (Battle.activeTypesOffset p))).1 with
      | error e => rw [h1] at hl; cases hl
      | ok a =>
        rw [h1] at hl
        injection hl with hl
        subst hl
        simpa using heq
  · intro buf p slot t buf2 hlen hset
    unfold Battle.set_types at hset
    cases hti : typeIndex gd t with
    | error e => rw [hti] at hset; cases hset
    | ok i =>
      rw [hti] at hset
      injection hset with hset
      subst hset
      have hidx : listIndex t gd.types = some i := by
        unfold typeIndex at hti
        cases hli : listIndex t gd.types with
        | none => rw [hli] at hti; cases hti
        | some j => rw [hli] at hti; injection hti with hti; rw [hti]
      have hi16 : i < 16 := lt_of_lt_of_le (listIndex_lt_length t gd.types i hidx) hlen
      have hget : gd.types.get? i = some t := listIndex_get t gd.types i hidx
      rw [List.get?_eq_getElem?] at hget
      unfold Battle.types
      rw [setByte_same, u4_roundtrip i i hi16 hi16]
      simp [typeName, hget]

/-- C10 witness: with the sample tables, writing the pair
`("Electric", "Electric")` and reading the types back yields the
single-element list `["Electric"]`. -/
theorem types_collapse_equal_witness :
    (Battle.set_types sampleData zeroBuf Player.P1 1 ("Electric", "Electric")).map
        (fun b => Battle.types sampleData b Player.P1 1) =
      .ok (.ok ["Electric"]) := by
  have hok : okB (Battle.set_types sampleData zeroBuf Player.P1 1
      ("Electric", "Electric")) = true := by decide
  cases hs : Battle.set_types sampleData zeroBuf Player.P1 1 ("Electric", "Electric") with
  | error e => rw [hs] at hok; simp [okB] at hok
  | ok b =>
    show Except.ok (Battle.types sampleData b Player.P1 1) = _
    rw [(types_collapse_equal sampleData).2.2 zeroBuf Player.P1 1 "Electric" b
      (by decide) hs]

/-!
## C6 — empty move slots and PP
-/

theorem encodeMoveSlot_no_mpp_zero (gd : GameData) (names : List String)
    (mpp : Option (Nat × Nat × Nat × Nat)) (i : Nat) (s : Nat × Nat)
    (hmpp : mpp = none) (h : encodeMoveSlot gd names mpp i = .ok s)
    (h0 : s.1 = 0) : s.2 = 0 := by
  unfold encodeMoveSlot at h
  split at h
  · injection h with h; subst h; rfl
  · split at h
    · cases h
    · split at h
      · split at h
        · injection h with h; subst h; rfl
        · rename_i hz
          split at h
          · cases h
          · injection h with h
            subst h
            exact absurd h0 hz
      · exact Option.noConfusion hmpp

theorem encodeMoveSlot_beyond (gd : GameData) (names : List String)
    (mpp : Option (Nat × Nat × Nat × Nat)) (i : Nat)
    (hi : names.length ≤ i) : encodeMoveSlot gd names mpp i = .ok (0, 0) := by
  unfold encodeMoveSlot
  rw [List.get?_eq_none.mpr hi]

theorem encodeMoves_eq (gd : GameData) (names : List String)
    (mpp : Option (Nat × Nat × Nat × Nat)) (mv : List Nat)
    (h : encodeMoves gd names mpp = .ok mv) :
    ∃ s0 s1 s2 s3,
      encodeMoveSlot gd names mpp 0 = .ok s0 ∧
      encodeMoveSlot gd names mpp 1 = .ok s1 ∧
      encodeMoveSlot gd names mpp 2 = .ok s2 ∧
      encodeMoveSlot gd names mpp 3 = .ok s3 ∧
      mv = [s0.1, s0.2, s1.1, s1.2, s2.1, s2.2, s3.1, s3.2] := by
  unfold encodeMoves at h
  cases h0 : encodeMoveSlot gd names mpp 0 with
  | error e => rw [h0] at h; cases h
  | ok s0 =>
    rw [h0] at h
    cases h1 : encodeMoveSlot gd names mpp 1 with
    | error e => rw [h1] at h; cases h
    | ok s1 =>
      rw [h1] at h
      cases h2 : encodeMoveSlot gd names mpp 2 with
      | error e => rw [h2] at h; cases h
      | ok s2 =>
        rw [h2] at h
        cases h3 : encodeMoveSlot gd names mpp 3 with
        | error e => rw [h3] at h; cases h
        | ok s3 =>
          rw [h3] at h
          injection h with h
          exact ⟨s0, s1, s2, s3, rfl, rfl, rfl, rfl, h.symm⟩

theorem resolveDefaults_move_pp (gd : GameData) (pd : PokemonData)
    (r : ResolvedPokemon) (h : resolveDefaults gd pd = .ok r) :
    r.move_pp = pd.extra.bind (·.move_pp) := by
  simp only [resolveDefaults] at h
  split at h
  · injection h with h; subst h; rfl
  · cases hs : gd.species pd.speciesName with
    | none => rw [hs] at h; cases h
    | some sd => rw [hs] at h; injection h with h; subst h; rfl

theorem encodePokemon_eq (gd : GameData) (pd : PokemonData) (l : List Nat)
    (h : encodePokemon gd pd = .ok l) :
    ∃ r mv sid t0 t1,
      resolveDefaults gd pd = .ok r ∧
      encodeMoves gd pd.moveNames r.move_pp = .ok mv ∧
      l = statBytes r.stats ++ mv ++ pack_u16_as_bytes r.hp ++
        [r.status, sid, pack_two_u4s t0 t1, r.level] := by
  unfold encodePokemon at h
  split at h
  · cases h
  · rename_i r hr
    split at h
    · cases h
    · rename_i mv hm
      split at h
      · cases h
      · rename_i sid hsid
        split at h
        · cases h
        · rename_i t0 ht0
          split at h
          · cases h
          · rename_i t1 ht1
            injection h with h
            exact ⟨r, mv, sid, t0, t1, hr, hm, h.symm⟩

theorem statBytes_length (s : StatData) : (statBytes s).length = 10 := by
  simp [statBytes, pack_u16_as_bytes]

theorem moves_getD (l : List Nat) (s : StatData) (mv rest : List Nat)
    (hl : l = statBytes s ++ mv ++ rest) (hmv : mv.length = 8) (k : Nat)
    (hk : k < 8) : l.getD (POKEMON_MOVES + k) 0 = mv.getD k 0 := by
  subst hl
  rw [show statBytes s ++ mv ++ rest = statBytes s ++ (mv ++ rest) by
    simp [List.append_assoc]]
  rw [List.getD_append_right _ _ _ _ (by rw [statBytes_length, POKEMON_MOVES]; omega)]
  rw [statBytes_length]
  rw [List.getD_append _ _ _ _ (by simp [POKEMON_MOVES, hmv]; omega)]
  congr 1
  simp [POKEMON_MOVES]

/-- C6 (amended): at Battle construction, when the Pokémon's extra data
supplies no explicit `move_pp` tuple, every encoded move slot whose move
id is 0 has PP 0; and — with or without an explicit `move_pp` tuple —
every slot beyond the supplied moveset length encodes as `(0, 0)`.
(An explicit `move_pp` paired with a `'None'` move inside the moveset,
and `set_moves`, write the supplied PP verbatim, so the invariant does
not extend to them.) -/
theorem move_slot_zero_pp (gd : GameData) (pd : PokemonData) (l : List Nat)
    (h : encodePokemon gd pd = .ok l) :
    (pd.extra.bind (·.move_pp) = none →
      ∀ i, i < 4 → l.getD (POKEMON_MOVES + 2 * i) 0 = 0 →
        l.getD (POKEMON_MOVES + 2 * i + 1) 0 = 0) ∧
    (∀ i, pd.moveNames.length ≤ i → i < 4 →
      l.getD (POKEMON_MOVES + 2 * i) 0 = 0 ∧
        l.getD (POKEMON_MOVES + 2 * i + 1) 0 = 0) := by
  obtain ⟨r, mv, sid, t0, t1, hr, hm, hl⟩ := encodePokemon_eq gd pd l h
  obtain ⟨s0, s1, s2, s3, e0, e1, e2, e3, hmv⟩ :=
    encodeMoves_eq gd pd.moveNames r.move_pp mv hm
  have hmvlen : mv.length = 8 := by rw [hmv]; rfl
  have hl2 : l = statBytes r.stats ++ mv ++
      (pack_u16_as_bytes r.hp ++ [r.status, sid, pack_two_u4s t0 t1, r.level]) := by
    rw [hl]
    simp [List.append_assoc]
  have hget : ∀ k, k < 8 → l.getD (POKEMON_MOVES + k) 0 = mv.getD k 0 := by
    intro k hk
    exact moves_getD l r.stats mv
      (pack_u16_as_bytes r.hp ++ [r.status, sid, pack_two_u4s t0 t1, r.level])
      hl2 hmvlen k hk
  constructor
  · intro hnone i hi hzero
    have hrpp : r.move_pp = none := by
      rw [resolveDefaults_move_pp gd pd r hr, hnone]
    have h2i : l.getD (POKEMON_MOVES + 2 * i) 0 = mv.getD (2 * i) 0 :=
      hget (2 * i) (by omega)
    have h2i1 : l.getD (POKEMON_MOVES + 2 * i + 1) 0 = mv.getD (2 * i + 1) 0 := by
      have := hget (2 * i + 1) (by omega)
      simpa [Nat.add_assoc] using this
    rw [h2i, hmv] at hzero
    rw [h2i1, hmv]
    interval_cases i
    · exact encodeMoveSlot_no_mpp_zero gd pd.moveNames _ 0 s0 hrpp e0 (by simpa using hzero)
    · exact encodeMoveSlot_no_mpp_zero gd pd.moveNames _ 1 s1 hrpp e1 (by simpa using hzero)
    · exact encodeMoveSlot_no_mpp_zero gd pd.moveNames _ 2 s2 hrpp e2 (by simpa using hzero)
    · exact encodeMoveSlot_no_mpp_zero gd pd.moveNames _ 3 s3 hrpp e3 (by simpa using hzero)
  · intro i hlen hi
    have h2i : l.getD (POKEMON_MOVES + 2 * i) 0 = mv.getD (2 * i) 0 :=
      hget (2 * i) (by omega)
    have h2i1 : l.getD (POKEMON_MOVES + 2 * i + 1) 0 = mv.getD (2 * i + 1) 0 := by
      have := hget (2 * i + 1) (by omega)
      simpa [Nat.add_assoc] using this
    rw [h2i, h2i1, hmv]
    interval_cases i
    · have := encodeMoveSlot_beyond gd pd.moveNames r.move_pp 0 hlen
      rw [this] at e0
      injection e0 with e0
      simp [← e0]
    · have := encodeMoveSlot_beyond gd pd.moveNames r.move_pp 1 hlen
      rw [this] at e1
      injection e1 with e1
      simp [← e1]
    · have := encodeMoveSlot_beyond gd pd.moveNames r.move_pp 2 hlen
      rw [this] at e2
      injection e2 with e2
      simp [← e2]
    · have := encodeMoveSlot_beyond gd pd.moveNames r.move_pp 3 hlen
      rw [this] at e3
      injection e3 with e3
      simp [← e3]

set_option maxRecDepth 20000 in
/-- C6 (counterexample): encoding a Pokémon whose moveset names the empty
move `'None'` while an explicit `move_pp` tuple supplies PP 5 for that
slot produces a move slot with id 0 and PP 5, violating the claimed
invariant that id 0 always comes with PP 0. -/
theorem move_slot_zero_pp_counterexample :
    (encodePokemon sampleData noneMovePokemon).map
        (fun l => (l.getD POKEMON_MOVES 0, l.getD (POKEMON_MOVES + 1) 0)) =
      .ok (0, 5) := by
  rfl

set_option maxRecDepth 20000 in
/-- C6 witness: the amended statement at a concrete input — without an
explicit `move_pp` tuple, the slot holding the `'None'` move (id 0)
encodes PP 0. -/
theorem move_slot_zero_pp_witness :
    (encodePokemon sampleData noneMoveNoPP).map
        (fun l => l.getD (POKEMON_MOVES + 1) 0) = .ok 0 := by
  cases h : encodePokemon sampleData noneMoveNoPP with
  | error e =>
    have hok : okB (encodePokemon sampleData noneMoveNoPP) = true := by rfl
    rw [h] at hok
    simp [okB] at hok
  | ok l =>
    have h10 : (encodePokemon sampleData noneMoveNoPP).map
        (fun l => l.getD (POKEMON_MOVES + 2 * 0) 0) = .ok 0 := by rfl
    rw [h] at h10
    injection h10 with h10
    show Except.ok (l.getD (POKEMON_MOVES + 1) 0) = Except.ok 0
    have hz := (move_slot_zero_pp sampleData noneMoveNoPP l h).1 rfl 0 (by omega) h10
    rw [show POKEMON_MOVES + 1 = POKEMON_MOVES + 2 * 0 + 1 from rfl, hz]

/-!
## C8 — seed-mode mismatch aborts construction
-/

/-- C8: constructing a battle with a Showdown-compatible binding and a
list seed, or with a non-Showdown-compatible binding and an integer seed,
never returns a battle buffer: construction ends in an error. -/
theorem seed_mode_mismatch_rejected (e : Engine) (gd : GameData)
    (p1t p2t : List PokemonData) (ls1 lu1 ls2 lu2 : String)
    (st ld m1 m2 : Nat) (seed : RngSeed) (ds : Nat) (dbs : List Nat)
    (h : (e.is_showdown_compatible = true ∧ seed.isList = true) ∨
      (e.is_showdown_compatible = false ∧ seed.isInt = true)) :
    okB (initBattle e gd p1t p2t ls1 lu1 ls2 lu2 st ld m1 m2 seed ds dbs) =
      false := by
  unfold initBattle
  cases hs : initSides gd p1t p2t ls1 lu1 ls2 lu2 with
  | error err => rfl
  | ok buf =>
    rcases h with ⟨hsd, hseed⟩ | ⟨hsd, hseed⟩
    · rw [hsd]
      cases seed with
      | list l => simp [okB]
      | unspecified => simp [RngSeed.isList] at hseed
      | int n => simp [RngSeed.isList] at hseed
    · rw [hsd]
      cases seed with
      | int n => simp [okB]
      | unspecified => simp [RngSeed.isInt] at hseed
      | list l => simp [RngSeed.isInt] at hseed

/-- C8 witness: a Showdown-compatible binding given a list seed fails
construction. -/
theorem seed_mode_mismatch_rejected_witness :
    okB (initBattle sampleEngine sampleData [] [] "None" "None" "None" "None"
      0 0 0 0 (.list []) 0 []) = false :=
  seed_mode_mismatch_rejected sampleEngine sampleData [] [] "None" "None"
    "None" "None" 0 0 0 0 (.list []) 0 [] (Or.inl ⟨rfl, rfl⟩)

/-!
## C9 — construction writes the identity order permutation and zero tails
-/

theorem encodePokemon_length (gd : GameData) (pd : PokemonData) (l : List Nat)
    (h : encodePokemon gd pd = .ok l) : l.length = 24 := by
  obtain ⟨r, mv, sid, t0, t1, hr, hm, hl⟩ := encodePokemon_eq gd pd l h
  obtain ⟨s0, s1, s2, s3, _, _, _, _, hmv⟩ :=
    encodeMoves_eq gd pd.moveNames r.move_pp mv hm
  subst hl
  rw [hmv]
  simp [statBytes, pack_u16_as_bytes]

theorem initPokemon_outside (gd : GameData) (buf : Buf) (off : Nat)
    (pd : PokemonData) (buf' : Buf) (h : initPokemon gd buf off pd = .ok buf')
    (a : Nat) (ha : a < off + POKEMON_STATS ∨ off + POKEMON_STATS + 24 ≤ a) :
    buf' a = buf a := by
  unfold initPokemon at h
  split at h
  · cases h
  · rename_i bs hbs
    injection h with h
    subst h
    exact writeBytes_outside bs buf (off + POKEMON_STATS) a
      (by rw [encodePokemon_length gd pd bs hbs]; exact ha)

theorem initTeam_outside (gd : GameData) (side_start : Nat) :
    ∀ (team : List PokemonData) (i : Nat) (buf buf' : Buf) (a : Nat),
      initTeam gd side_start buf team i = .ok buf' →
      (a < side_start + SIDE_POKEMON + i * POKEMON_SIZE ∨
        side_start + SIDE_POKEMON + (i + team.length) * POKEMON_SIZE ≤ a) →
      buf' a = buf a := by
  intro team
  induction team with
  | nil =>
    intro i buf buf' a h _
    unfold initTeam at h
    injection h with h
    subst h
    rfl
  | cons pd rest ih =>
    intro i buf buf' a h ha
    unfold initTeam at h
    split at h
    · cases h
    · rename_i b2 hb2
      simp only [SIDE_POKEMON, POKEMON_SIZE, POKEMON_STATS, List.length_cons] at ha
      rw [ih (i + 1) b2 buf' a h
        (by simp only [SIDE_POKEMON, POKEMON_SIZE]; omega)]
      exact initPokemon_outside gd buf _ pd b2 hb2 a
        (by simp only [SIDE_POKEMON, POKEMON_SIZE, POKEMON_STATS]; omega)

theorem writeOrder_outside (buf : Buf) (s : Nat) :
    ∀ (n a : Nat), (a < s + SIDE_ORDER ∨ s + SIDE_ORDER + n ≤ a) →
      writeOrder buf s n a = buf a := by
  intro n
  induction n with
  | zero => intro a _; rfl
  | succ m ih =>
    intro a ha
    unfold writeOrder
    rw [setByte_other _ _ _ _ (by omega)]
    exact ih a (by omega)

theorem writeOrder_at (buf : Buf) (s : Nat) :
    ∀ (n i : Nat), i < n → writeOrder buf s n (s + SIDE_ORDER + i) = i + 1 := by
  intro n
  induction n with
  | zero => intro i h; omega
  | succ m ih =>
    intro i hi
    unfold writeOrder
    by_cases him : i = m
    · subst him
      rw [setByte_same]
    · rw [setByte_other _ _ _ _ (by omega)]
      exact ih i (by omega)

theorem initSide_eq (gd : GameData) (buf : Buf) (s : Nat) (ls lu : String)
    (team : List PokemonData) (buf' : Buf)
    (h : initSide gd buf s ls lu team = .ok buf') :
    ∃ lsm lum bufT,
      initTeam gd s
        (setByte (setByte buf (s + SIDE_LAST_SELECTED_MOVE) lsm)
          (s + SIDE_LAST_USED_MOVE) lum) team 0 = .ok bufT ∧
      buf' = writeOrder bufT s team.length := by
  unfold initSide at h
  split at h
  · cases h
  · rename_i lsm hlsm
    split at h
    · cases h
    · rename_i lum hlum
      simp only [] at h
      split at h
      · cases h
      · rename_i bufT hT
        injection h with h
        exact ⟨lsm, lum, bufT, hT, h.symm⟩

theorem initSide_order_at (gd : GameData) (buf : Buf) (s : Nat) (ls lu : String)
    (team : List PokemonData) (buf' : Buf)
    (h : initSide gd buf s ls lu team = .ok buf') (i : Nat)
    (hi : i < team.length) : buf' (s + SIDE_ORDER + i) = i + 1 := by
  obtain ⟨lsm, lum, bufT, hT, hw⟩ := initSide_eq gd buf s ls lu team buf' h
  subst hw
  exact writeOrder_at bufT s team.length i hi

theorem initSide_untouched (gd : GameData) (buf : Buf) (s : Nat) (ls lu : String)
    (team : List PokemonData) (buf' : Buf)
    (h : initSide gd buf s ls lu team = .ok buf') (a : Nat)
    (hord : a < s + SIDE_ORDER ∨ s + SIDE_ORDER + team.length ≤ a)
    (hpkm : a < s + SIDE_POKEMON ∨
      s + SIDE_POKEMON + team.length * POKEMON_SIZE ≤ a)
    (hsel : a ≠ s + SIDE_LAST_SELECTED_MOVE)
    (huse : a ≠ s + SIDE_LAST_USED_MOVE) :
    buf' a = buf a := by
  obtain ⟨lsm, lum, bufT, hT, hw⟩ := initSide_eq gd buf s ls lu team buf' h
  subst hw
  rw [writeOrder_outside bufT s team.length a hord]
  rw [initTeam_outside gd s team 0 _ bufT a hT
    (by simp only [SIDE_POKEMON, POKEMON_SIZE] at hpkm ⊢; omega)]
  rw [setByte_other _ _ _ _ huse, setByte_other _ _ _ _ hsel]

theorem initSide_outside (gd : GameData) (buf : Buf) (s : Nat) (ls lu : String)
    (team : List PokemonData) (buf' : Buf)
    (h : initSide gd buf s ls lu team = .ok buf') (hlen : team.length ≤ 6)
    (a : Nat) (ha : a < s ∨ s + SIDE_SIZE ≤ a) : buf' a = buf a := by
  have ha' : a < s ∨ s + 184 ≤ a := by simpa [SIDE_SIZE] using ha
  refine initSide_untouched gd buf s ls lu team buf' h a ?_ ?_ ?_ ?_ <;>
    simp only [SIDE_ORDER, SIDE_POKEMON, POKEMON_SIZE,
      SIDE_LAST_SELECTED_MOVE, SIDE_LAST_USED_MOVE] <;>
    omega

theorem initSides_eq (gd : GameData) (p1t p2t : List PokemonData)
    (ls1 lu1 ls2 lu2 : String) (buf' : Buf)
    (h : initSides gd p1t p2t ls1 lu1 ls2 lu2 = .ok buf') :
    ∃ b1, initSide gd zeroBuf BATTLE_SIDES ls1 lu1 p1t = .ok b1 ∧
      initSide gd b1 (BATTLE_SIDES + SIDE_SIZE) ls2 lu2 p2t = .ok buf' := by
  unfold initSides at h
  split at h
  · cases h
  · rename_i b1 h1
    exact ⟨b1, h1, h⟩

theorem initBattle_low (e : Engine) (gd : GameData)
    (p1t p2t : List PokemonData) (ls1 lu1 ls2 lu2 : String)
    (st ld m1 m2 : Nat) (seed : RngSeed) (ds : Nat) (dbs : List Nat) (bf : Buf)
    (h : initBattle e gd p1t p2t ls1 lu1 ls2 lu2 st ld m1 m2 seed ds dbs =
      .ok bf) :
    ∃ b2, initSides gd p1t p2t ls1 lu1 ls2 lu2 = .ok b2 ∧
      ∀ a, a < BATTLE_TURN → bf a = b2 a := by
  unfold initBattle at h
  split at h
  · cases h
  · rename_i b2 hs
    refine ⟨b2, hs, ?_⟩
    intro a ha
    split at h
    · split at h
      · cases h
      · injection h with h
        subst h
        rw [writeBytes_outside _ _ _ _ (Or.inl (by omega)),
          writeBytes_outside _ _ _ _ (Or.inl (by omega)),
          writeBytes_outside _ _ _ _ (Or.inl (by omega)),
          writeBytes_outside _ _ _ _ (Or.inl (by omega)),
          writeBytes_outside _ _ _ _ (Or.inl (by omega))]
      · injection h with h
        subst h
        rw [writeBytes_outside _ _ _ _ (Or.inl (by omega)),
          writeBytes_outside _ _ _ _ (Or.inl (by omega)),
          writeBytes_outside _ _ _ _ (Or.inl (by omega)),
          writeBytes_outside _ _ _ _ (Or.inl (by omega)),
          writeBytes_outside _ _ _ _ (Or.inl (by omega))]
    · split at h
      · cases h
      · injection h with h
        subst h
        rw [writeBytes_outside _ _ _ _ (Or.inl (by omega)),
          setByte_other _ _ _ _ (by omega),
          writeBytes_outside _ _ _ _ (Or.inl (by omega)),
          writeBytes_outside _ _ _ _ (Or.inl (by omega))]
      · injection h with h
        subst h
        rw [writeBytes_outside _ _ _ _ (Or.inl (by omega)),
          setByte_other _ _ _ _ (by omega),
          writeBytes_outside _ _ _ _ (Or.inl (by omega)),
          writeBytes_outside _ _ _ _ (Or.inl (by omega))]

/-- C9: after constructing a battle whose team for side `p` has `N`
members (both rosters having 1-6 members), that side's order region holds
exactly the identity permutation `[1, ..., N]`, its trailing order bytes
are 0, and every roster slot with index greater than `N` has species
id 0. -/
theorem construction_order_and_trailing (e : Engine) (gd : GameData)
    (p1t p2t : List PokemonData) (ls1 lu1 ls2 lu2 : String)
    (st ld m1 m2 : Nat) (seed : RngSeed) (ds : Nat) (dbs : List Nat)
    (bf : Buf) (p : Player)
    (hlen1 : 1 ≤ p1t.length) (hlen2 : p1t.length ≤ 6)
    (hlen3 : 1 ≤ p2t.length) (hlen4 : p2t.length ≤ 6)
    (h : initBattle e gd p1t p2t ls1 lu1 ls2 lu2 st ld m1 m2 seed ds dbs =
      .ok bf) :
    (∀ i, i < (teamOf p p1t p2t).length →
      bf (sideStart p + SIDE_ORDER + i) = i + 1) ∧
    (∀ i, (teamOf p p1t p2t).length ≤ i → i < 6 →
      bf (sideStart p + SIDE_ORDER + i) = 0) ∧
    (∀ j, (teamOf p p1t p2t).length < j → j ≤ 6 →
      bf (sideStart p + SIDE_POKEMON + POKEMON_SIZE * (j - 1) +
        POKEMON_SPECIES) = 0) := by
  obtain ⟨b2, hs, hlow⟩ :=
    initBattle_low e gd p1t p2t ls1 lu1 ls2 lu2 st ld m1 m2 seed ds dbs bf h
  obtain ⟨b1, hA, hB⟩ := initSides_eq gd p1t p2t ls1 lu1 ls2 lu2 b2 hs
  cases p with
  | P1 =>
    have hss : sideStart Player.P1 = BATTLE_SIDES := by
      simp [sideStart, Player.toNat]
    rw [hss]
    simp only [teamOf]
    refine ⟨?_, ?_, ?_⟩
    · intro i hi
      rw [hlow _ (by simp only [BATTLE_SIDES, SIDE_ORDER, BATTLE_TURN]; omega)]
      rw [initSide_outside gd b1 _ ls2 lu2 p2t b2 hB hlen4 _
        (Or.inl (by simp only [BATTLE_SIDES, SIDE_ORDER, SIDE_SIZE]; omega))]
      exact initSide_order_at gd zeroBuf BATTLE_SIDES ls1 lu1 p1t b1 hA i hi
    · intro i hge hlt
      rw [hlow _ (by simp only [BATTLE_SIDES, SIDE_ORDER, BATTLE_TURN]; omega)]
      rw [initSide_outside gd b1 _ ls2 lu2 p2t b2 hB hlen4 _
        (Or.inl (by simp only [BATTLE_SIDES, SIDE_ORDER, SIDE_SIZE]; omega))]
      rw [initSide_untouched gd zeroBuf BATTLE_SIDES ls1 lu1 p1t b1 hA _
        (Or.inr (by omega))
        (by simp only [BATTLE_SIDES, SIDE_ORDER, SIDE_POKEMON, POKEMON_SIZE]; omega)
        (by simp only [BATTLE_SIDES, SIDE_ORDER, SIDE_LAST_SELECTED_MOVE]; omega)
        (by simp only [BATTLE_SIDES, SIDE_ORDER, SIDE_LAST_USED_MOVE]; omega)]
      rfl
    · intro j hgt hle
      rw [hlow _ (by simp only [BATTLE_SIDES, SIDE_POKEMON, POKEMON_SIZE, POKEMON_SPECIES, BATTLE_TURN]; omega)]
      rw [initSide_outside gd b1 _ ls2 lu2 p2t b2 hB hlen4 _
        (Or.inl (by simp only [BATTLE_SIDES, SIDE_POKEMON, POKEMON_SIZE, POKEMON_SPECIES, SIDE_SIZE]; omega))]
      rw [initSide_untouched gd zeroBuf BATTLE_SIDES ls1 lu1 p1t b1 hA _
        (by simp only [BATTLE_SIDES, SIDE_ORDER, SIDE_POKEMON, POKEMON_SIZE, POKEMON_SPECIES]; omega)
        (by simp only [BATTLE_SIDES, SIDE_POKEMON, POKEMON_SIZE, POKEMON_SPECIES]; right; omega)
        (by simp only [BATTLE_SIDES, SIDE_POKEMON, POKEMON_SIZE, POKEMON_SPECIES, SIDE_LAST_SELECTED_MOVE]; omega)
        (by simp only [BATTLE_SIDES, SIDE_POKEMON, POKEMON_SIZE, POKEMON_SPECIES, SIDE_LAST_USED_MOVE]; omega)]
      rfl
  | P2 =>
    have hss : sideStart Player.P2 = BATTLE_SIDES + SIDE_SIZE := by
      simp [sideStart, Player.toNat]
    rw [hss]
    simp only [teamOf]
    refine ⟨?_, ?_, ?_⟩
    · intro i hi
      rw [hlow _ (by simp only [BATTLE_SIDES, SIDE_SIZE, SIDE_ORDER, BATTLE_TURN]; omega)]
      exact initSide_order_at gd b1 (BATTLE_SIDES + SIDE_SIZE) ls2 lu2 p2t b2
        hB i hi
    · intro i hge hlt
      rw [hlow _ (by simp only [BATTLE_SIDES, SIDE_SIZE, SIDE_ORDER, BATTLE_TURN]; omega)]
      rw [initSide_untouched gd b1 (BATTLE_SIDES + SIDE_SIZE) ls2 lu2 p2t b2
        hB _
        (Or.inr (by omega))
        (by simp only [BATTLE_SIDES, SIDE_SIZE, SIDE_ORDER, SIDE_POKEMON, POKEMON_SIZE]; omega)
        (by simp only [BATTLE_SIDES, SIDE_SIZE, SIDE_ORDER, SIDE_LAST_SELECTED_MOVE]; omega)
        (by simp only [BATTLE_SIDES, SIDE_SIZE, SIDE_ORDER, SIDE_LAST_USED_MOVE]; omega)]
      rw [initSide_outside gd zeroBuf BATTLE_SIDES ls1 lu1 p1t b1 hA hlen2 _
        (Or.inr (by simp only [BATTLE_SIDES, SIDE_SIZE, SIDE_ORDER]; omega))]
      rfl
    · intro j hgt hle
      rw [hlow _ (by simp only [BATTLE_SIDES, SIDE_SIZE, SIDE_POKEMON, POKEMON_SIZE, POKEMON_SPECIES, BATTLE_TURN]; omega)]
      rw [initSide_untouched gd b1 (BATTLE_SIDES + SIDE_SIZE) ls2 lu2 p2t b2
        hB _
        (by simp only [BATTLE_SIDES, SIDE_SIZE, SIDE_ORDER, SIDE_POKEMON, POKEMON_SIZE, POKEMON_SPECIES]; omega)
        (by simp only [BATTLE_SIDES, SIDE_SIZE, SIDE_POKEMON, POKEMON_SIZE, POKEMON_SPECIES]; right; omega)
        (by simp only [BATTLE_SIDES, SIDE_SIZE, SIDE_POKEMON, POKEMON_SIZE, POKEMON_SPECIES, SIDE_LAST_SELECTED_MOVE]; omega)
        (by simp only [BATTLE_SIDES, SIDE_SIZE, SIDE_POKEMON, POKEMON_SIZE, POKEMON_SPECIES, SIDE_LAST_USED_MOVE]; omega)]
      rw [initSide_outside gd zeroBuf BATTLE_SIDES ls1 lu1 p1t b1 hA hlen2 _
        (Or.inr (by simp only [BATTLE_SIDES, SIDE_SIZE, SIDE_POKEMON, POKEMON_SIZE, POKEMON_SPECIES]; omega))]
      rfl

set_option maxRecDepth 20000 in
/-- C9 witness: a concrete one-member-per-side construction — player 1's
order region reads `[1, 0, ...]` and roster slot 2 has species id 0. -/
theorem construction_order_and_trailing_witness :
    (initBattle sampleEngine sampleData [samplePokemon] [samplePokemon]
        "None" "None" "None" "None" 0 0 0 0 .unspecified 0 []).map
      (fun b => (b (sideStart Player.P1 + SIDE_ORDER + 0),
        b (sideStart Player.P1 + SIDE_ORDER + 1),
        b (sideStart Player.P1 + SIDE_POKEMON + POKEMON_SIZE * (2 - 1) +
          POKEMON_SPECIES))) =
      .ok (1, 0, 0) := by
  cases h : initBattle sampleEngine sampleData [samplePokemon] [samplePokemon]
      "None" "None" "None" "None" 0 0 0 0 .unspecified 0 [] with
  | error e =>
    have hok : okB (initBattle sampleEngine sampleData [samplePokemon]
        [samplePokemon] "None" "None" "None" "None" 0 0 0 0
        .unspecified 0 []) = true := by rfl
    rw [h] at hok
    simp [okB] at hok
  | ok bf =>
    have hc := construction_order_and_trailing sampleEngine sampleData
      [samplePokemon] [samplePokemon] "None" "None" "None" "None" 0 0 0 0
      .unspecified 0 [] bf Player.P1 (by decide) (by decide) (by decide)
      (by decide) h
    show Except.ok (bf (sideStart Player.P1 + SIDE_ORDER + 0),
      bf (sideStart Player.P1 + SIDE_ORDER + 1),
      bf (sideStart Player.P1 + SIDE_POKEMON + POKEMON_SIZE * (2 - 1) +
        POKEMON_SPECIES)) = Except.ok (1, 0, 0)
    rw [hc.1 0 (by decide), hc.2.1 1 (by decide) (by decide),
      hc.2.2 2 (by decide) (by decide)]
